import Mathlib

/-!
Shallow embedding of `start_server.py` (dev-server supervisor) for checking
the repository specification.

The script is effectful (sockets, subprocesses, queues, signals); the
embedding makes each external effect an explicit input:

* the outcome of the transient `socket.bind` probe is a `BindResult`;
* the lines produced by the stdout/stderr readers of a child are the contents of
  two queues, modelled as lists whose entries are `Option String`
  (`none` is the end-of-stream sentinel the reader threads push);
* `process.poll()` results are boolean-valued inputs;
* the pid lookup (`lsof -ti :port`) and `os.kill` outcomes for `stop_server`
  are inputs (`Option Nat`, `KillOutcome`).

The POSIX (`sys.platform != "win32"`) branches are the ones embedded.
Diagnostic `print` calls are modelled only where a claim depends on them
(the usage text and the per-role "already running" reports); other prints
are pure diagnostics no claim mentions.
-/

namespace StartServer

/-- The two supervised roles (`frontend`, `backend`). -/
inductive Role
  | frontend
  | backend
deriving DecidableEq, Repr

/-- Port constants: `FRONTEND_PORT = 5173`, `BACKEND_PORT = 5000`. -/
def Role.port : Role → Nat
  | .frontend => 5173
  | .backend => 5000

/-! ### PortProbe: `is_port_in_use` (lines 27-34)

The Python body binds `localhost:port`; on success it returns `False`, and a
bare `except OSError` returns `True`.  `OSError` covers both
`EADDRINUSE` *and* unexpected OS errors such as `EACCES` (permission
denied), so the outcome of the bind attempt is the input here. -/

/-- Possible outcomes of the transient `s.bind(("localhost", port))` call. -/
inductive BindResult
  | ok            -- bind succeeded: port free
  | addrInUse     -- OSError EADDRINUSE: port bound
  | permission    -- OSError EACCES: an unexpected OS-level error
deriving DecidableEq, Repr

/-- Model of `is_port_in_use`: returns `False` when the bind succeeds, `True` on any
`OSError` — address-in-use and permission errors alike. -/
def is_port_in_use : BindResult → Bool
  | .ok => false
  | .addrInUse => true
  | .permission => true

/-! ### StreamMultiplexer: the drain loop of `print_output` (lines 247-281)

The two reader threads push each line onto their queue and finally push
`None` (the sentinel).  The drain loop, per iteration:
  1. `stdout_queue.get(timeout=0.1)`: a sentinel breaks the whole loop, a
     line is printed, an empty queue (`queue.Empty`) is passed over;
  2. the same for `stderr_queue`;
  3. if `process.poll() is not None`, both queues are emptied with
     `get_nowait` (printing non-`None` entries) and the loop breaks.
A queue is a `List (Option String)` (`none` = sentinel); `process.poll()`
is the boolean `exited`; the Python `while True` becomes fuel recursion
(`none` = fuel exhausted, i.e. the loop is still running). -/

/-- Which stream a delivered line came from. -/
inductive Sink
  | out
  | err
deriving DecidableEq, Repr

/-- Why the drain loop exited. -/
inductive ExitReason
  | stdoutSentinel   -- `line is None` on the stdout queue (first `break`)
  | stderrSentinel   -- `line is None` on the stderr queue (second `break`)
  | procExit         -- `process.poll() is not None`: drain both queues, break
deriving DecidableEq, Repr

/-- Observable result of the drain loop: lines printed (in order), the exit
reason, and what was left un-consumed on each queue at exit. -/
structure DrainResult where
  delivered : List (Sink × String)
  reason : ExitReason
  stdoutRem : List (Option String)
  stderrRem : List (Option String)
deriving DecidableEq, Repr

/-- The final drain of one queue with `get_nowait` until `queue.Empty`:
every entry is consumed, the non-sentinel ones are printed. -/
def drainRemaining (sink : Sink) (q : List (Option String)) :
    List (Sink × String) :=
  q.filterMap (fun e => e.map (fun l => (sink, l)))

/-- One `get(timeout=0.1)` on a queue whose head is not a sentinel: pops a
line when one is available, passes (`queue.Empty`) otherwise. -/
def popLine : List (Option String) → Option String × List (Option String)
  | some l :: rest => (some l, rest)
  | q => (none, q)

/-- Prepend a popped line (if one was available) to the printed-so-far
accumulator. -/
def pushPopped (sink : Sink) : Option String → List (Sink × String) →
    List (Sink × String)
  | some l, acc => (sink, l) :: acc
  | none, acc => acc

/-- The drain loop of `print_output`, with `acc` the lines printed so far
(reversed).  Returns `none` when `fuel` runs out (loop still running). -/
def drainLoop : Nat → Bool → List (Option String) → List (Option String) →
    List (Sink × String) → Option DrainResult
  | 0, _, _, _, _ => none
  | fuel + 1, exited, outQ, errQ, acc =>
    match outQ with
    | none :: rest =>
      -- stdout sentinel: `break` immediately, stderr queue untouched
      some ⟨acc.reverse, .stdoutSentinel, rest, errQ⟩
    | _ =>
      match errQ with
      | none :: rest =>
        -- stderr sentinel: `break`, stdout queue keeps its remainder
        some ⟨(pushPopped .out (popLine outQ).1 acc).reverse,
              .stderrSentinel, (popLine outQ).2, rest⟩
      | _ =>
        if exited then
          -- process ended: drain what remains of both queues, then break
          some ⟨(pushPopped .err (popLine errQ).1
                    (pushPopped .out (popLine outQ).1 acc)).reverse
                  ++ drainRemaining .out (popLine outQ).2
                  ++ drainRemaining .err (popLine errQ).2,
                .procExit, [], []⟩
        else
          drainLoop fuel exited (popLine outQ).2 (popLine errQ).2
            (pushPopped .err (popLine errQ).1
              (pushPopped .out (popLine outQ).1 acc))

/-- Entry point of the loop (empty accumulator). -/
def print_output (fuel : Nat) (exited : Bool)
    (outQ errQ : List (Option String)) : Option DrainResult :=
  drainLoop fuel exited outQ errQ []

/-! ### Supervisor: `start_both` (lines 166-321)

`start_both` probes both ports, returns `True` at once when both are bound,
otherwise spawns the not-running roles (backend first, then frontend,
appending each to `processes`) and enters the monitor loop.  The loop can
end in three ways, each an externally-determined event:

  * a spawned process is observed dead (`poll() is not None`): every
    process whose `poll()` is still `None` gets `terminate()`, and
    `start_both` returns `False` — there is no wait and no `kill()` on
    this path;
  * `KeyboardInterrupt`: every process with `poll() is None` gets
    `terminate()`, then `time.sleep(1)`, then every process whose `poll()`
    is *still* `None` gets `kill()`; returns `True`;
  * any other exception (e.g. `Popen` failing): every live process gets
    `terminate()`; returns `False`. -/

/-- A signal the supervisor sends to a managed process. -/
inductive Action
  | terminate (r : Role)   -- process.terminate()
  | kill (r : Role)        -- process.kill()
deriving DecidableEq, Repr

/-- Whether an action is a forced kill. -/
def isKill : Action → Bool
  | .kill _ => true
  | .terminate _ => false

/-- Returns `true` iff no terminate is issued after any kill: once a kill appears
in the signal sequence, everything after it is also a kill. -/
def noTermAfterKill : List Action → Bool
  | [] => true
  | a :: rest => (!(isKill a) || rest.all isKill) && noTermAfterKill rest

/-- Error conditions the script reports (spec §7 taxonomy). -/
inductive ErrReport
  | alreadyRunning (r : Role)        -- "... is already running on port ..."
  | conflictingRole (r : Role)       -- "Cannot start X while Y is running."
  | unexpectedExit (r : Role) (code : Int)  -- "... process exited with code ..."
deriving DecidableEq, Repr

/-- How the monitor phase of `start_both` ends.  `pollAlive` /
`pollAliveAfterGrace` give the result of `process.poll() is None` for each
role at the moment the corresponding loop in the source runs; in `died`,
`aliveAfterGrace` records whether the sibling would still be alive after a
grace period — an environment fact the source never consults (it has no
grace wait on that path), needed only to state the specification. -/
inductive MonitorEvent
  | died (r : Role) (code : Int) (pollAlive : Role → Bool)
      (aliveAfterGrace : Role → Bool)
  | interrupt (pollAlive : Role → Bool) (pollAliveAfterGrace : Role → Bool)
  | exn (pollAlive : Role → Bool)

/-- Observable outcome of one `start_both` call: the `processes` list (the
spawned roles, in append order), the error conditions reported, the
terminate/kill signals issued (in order), and the boolean return value. -/
structure SessionResult where
  spawned : List Role
  reported : List ErrReport
  shutdownActs : List Action
  success : Bool
deriving DecidableEq, Repr

/-- Model of `start_both`, over the two port-probe results and the monitor
event. -/
def start_both (frontendBound backendBound : Bool) (ev : MonitorEvent) :
    SessionResult :=
  let warn :=
    (if frontendBound then [ErrReport.alreadyRunning .frontend] else [])
      ++ (if backendBound then [ErrReport.alreadyRunning .backend] else [])
  if frontendBound && backendBound then
    -- "Both servers are already running!"  return True
    ⟨[], warn, [], true⟩
  else
    -- backend spawned first, then frontend (lines 190-199)
    let spawned :=
      (if backendBound then [] else [Role.backend])
        ++ (if frontendBound then [] else [Role.frontend])
    match ev with
    | .died r code pollAlive _ =>
      ⟨spawned, warn ++ [.unexpectedExit r code],
        (spawned.filter pollAlive).map .terminate, false⟩
    | .interrupt pollAlive pollAliveAfterGrace =>
      ⟨spawned, warn,
        (spawned.filter pollAlive).map .terminate
          ++ (spawned.filter pollAliveAfterGrace).map .kill, true⟩
    | .exn pollAlive =>
      ⟨spawned, warn, (spawned.filter pollAlive).map .terminate, false⟩

/-! ### ProcessLauncher, individual mode: `start_frontend` / `start_backend`
(lines 106-164) -/

/-- Outcome of the blocking `subprocess.run(..., check=True)` call. -/
inductive RunResult
  | success              -- child exited 0
  | calledProcessError   -- child exited nonzero (CalledProcessError)
  | interrupted          -- KeyboardInterrupt while waiting
deriving DecidableEq, Repr

/-- Observable outcome of an individual-role launch: return value, whether
a child command was actually run, and the refusal reported (if any). -/
structure IndivResult where
  ok : Bool
  ranChild : Bool
  refusal : Option ErrReport
deriving DecidableEq, Repr

/-- Model of `start_frontend(check_backend=True)`: refuses when the frontend port is
bound, then when the backend port is bound; otherwise runs `npm run dev`
in the foreground. -/
def start_frontend (frontendBound backendBound : Bool) (rr : RunResult) :
    IndivResult :=
  if frontendBound then ⟨false, false, some (.alreadyRunning .frontend)⟩
  else if backendBound then ⟨false, false, some (.conflictingRole .frontend)⟩
  else
    match rr with
    | .success => ⟨true, true, none⟩
    | .calledProcessError => ⟨false, true, none⟩
    | .interrupted => ⟨false, true, none⟩

/-- Model of `start_backend(check_frontend=True)`: symmetric to
`start_frontend`. -/
def start_backend (frontendBound backendBound : Bool) (rr : RunResult) :
    IndivResult :=
  if backendBound then ⟨false, false, some (.alreadyRunning .backend)⟩
  else if frontendBound then ⟨false, false, some (.conflictingRole .backend)⟩
  else
    match rr with
    | .success => ⟨true, true, none⟩
    | .calledProcessError => ⟨false, true, none⟩
    | .interrupted => ⟨false, true, none⟩

/-! ### PortTerminator: `stop_server` (lines 323-382, POSIX branch)

`lsof -ti :port` either yields a pid or not; `os.kill(pid, SIGTERM)` either
succeeds or raises (caught by the enclosing `except Exception`, which
returns `False`).  A port probe saying "not in use" returns `False`
("not running"); an unknown server type returns `False`. -/

/-- Outcome of `os.kill(pid, signal.SIGTERM)`. -/
inductive KillOutcome
  | ok
  | noSuchProcess      -- ProcessLookupError
  | permissionDenied   -- PermissionError
deriving DecidableEq, Repr

/-- Stop logic for one resolved port: `bound` is the probe result,
`lsofPid` the pid `lsof` found (if any), `ko` the `os.kill` outcome. -/
def stopOnPort (bound : Bool) (lsofPid : Option Nat) (ko : KillOutcome) :
    Bool :=
  if !bound then false        -- "X is not running on port p" -> False
  else
    match lsofPid with
    | none => false           -- "Could not find process on port p" -> False
    | some _ =>
      match ko with
      | .ok => true           -- "Stopped X server (PID: p)" -> True
      | .noSuchProcess => false     -- except Exception -> False
      | .permissionDenied => false  -- except Exception -> False

/-- Model of `stop_server(server_type)`: resolves the port of the role,
else reports an unknown server type and returns `False`. -/
def stop_server (server_type : String) (frontendBound backendBound : Bool)
    (lsofPid : Option Nat) (ko : KillOutcome) : Bool :=
  if server_type = "frontend" then stopOnPort frontendBound lsofPid ko
  else if server_type = "backend" then stopOnPort backendBound lsofPid ko
  else false

/-! ### Entry point: `main` (lines 438-486) and `print_usage` (411-436)

`argv` below is `sys.argv[1:]`.  `sys.exit` arguments become `exitCode`;
falling off the end of `main` (the `status` and `stop` branches) is the
implicit exit code 0.  Output is tracked only on the branches a claim
depends on — `help` and the unknown-command branch, where the listed
writes are *all* the writes the source performs; the diagnostics of the
other branches are left unmodelled (empty `outputs`). -/

/-- The two standard output channels. -/
inductive Chan
  | stdout
  | stderr
deriving DecidableEq, Repr

/-- Python `str.lower()`, per character.  Every command word the script
compares against is ASCII, for which the per-character ASCII lowering is
exact. -/
def pyLower (s : String) : String := String.mk (s.data.map Char.toLower)

/-- The text `print_usage` prints.  `print` writes to standard output. -/
def usage_text : String :=
  "\n🚀 Server Starter Script\nStarts both frontend and backend servers.\n\nUsage:\n    python start_server.py                    Start both frontend and backend\n    python start_server.py <command> [options]\n\nCommands:\n    (no args)         Start both frontend and backend servers\n    start frontend    Start only the frontend development server\n    start backend     Start only the backend server\n    stop frontend     Stop the frontend server\n    stop backend      Stop the backend server\n    status            Check the status of both servers\n    help              Show this help message\n\nExamples:\n    python start_server.py                    # Start both servers\n    python start_server.py start frontend    # Start only frontend\n    python start_server.py start backend     # Start only backend\n    python start_server.py status            # Check status\n    python start_server.py stop frontend     # Stop frontend\n"

/-- Observable outcome of one script invocation. -/
structure MainResult where
  exitCode : Nat
  outputs : List (Chan × String)
  session : Option SessionResult
  indiv : Option IndivResult
  stopResult : Option Bool
deriving Repr

/-- Model of `main`, over `sys.argv[1:]` and the external-world inputs each branch
may consume (port probes, monitor event, foreground run result, pid lookup
and kill outcome). -/
def main (argv : List String) (frontendBound backendBound : Bool)
    (ev : MonitorEvent) (rr : RunResult) (lsofPid : Option Nat)
    (ko : KillOutcome) : MainResult :=
  match argv with
  | [] =>
    -- no arguments: start both, exit 0 iff start_both returned True
    let s := start_both frontendBound backendBound ev
    ⟨if s.success then 0 else 1, [], some s, none, none⟩
  | cmd :: rest =>
    let c := pyLower cmd
    if c = "help" || c = "-h" || c = "--help" then
      ⟨0, [(Chan.stdout, usage_text)], none, none, none⟩
    else if c = "status" then
      -- check_status() prints diagnostics; falls through to implicit exit 0
      ⟨0, [], none, none, none⟩
    else if c = "start" then
      match rest with
      | [] => ⟨1, [], none, none, none⟩   -- "Please specify ..." then exit(1)
      | st :: _ =>
        let t := pyLower st
        if t = "frontend" then
          let r := start_frontend frontendBound backendBound rr
          ⟨if r.ok then 0 else 1, [], none, some r, none⟩
        else if t = "backend" then
          let r := start_backend frontendBound backendBound rr
          ⟨if r.ok then 0 else 1, [], none, some r, none⟩
        else
          ⟨1, [], none, none, none⟩       -- "Unknown server type" then exit(1)
    else if c = "stop" then
      match rest with
      | [] => ⟨1, [], none, none, none⟩   -- "Please specify ..." then exit(1)
      | st :: _ =>
        -- stop_server result is discarded; main falls through: exit code 0
        let b := stop_server (pyLower st) frontendBound backendBound lsofPid ko
        ⟨0, [], none, none, some b⟩
    else
      -- unknown command: error line and usage both via print (stdout)
      ⟨1, [(Chan.stdout, "❌ Error: Unknown command " ++ c),
           (Chan.stdout, usage_text)], none, none, none⟩

/-! ## Theorems -/

/-- C4 (counterexample): the port probe does not surface permission denial
as a distinct error condition — `is_port_in_use` maps the `EACCES` bind
failure to the very same observable value (`true`) as address-in-use, so
the two outcomes are conflated. -/
theorem C4_probe_counterexample :
    is_port_in_use BindResult.permission = is_port_in_use BindResult.addrInUse ∧
    is_port_in_use BindResult.permission = true :=
  ⟨rfl, rfl⟩

/-- C4 (amended): the probe returns `true` exactly when the bind attempt
fails with an `OSError` — address-in-use and OS-level unexpected errors
such as permission denial alike — and `false` when the bind succeeds; it
never throws on any bind outcome (its codomain is `Bool`). -/
theorem C4_probe_amended (b : BindResult) :
    is_port_in_use b = !(decide (b = BindResult.ok)) := by
  cases b <;> rfl

/-- C6: an individual launch of a role whose own port is already bound is
refused with `AlreadyRunning`, returns failure, and runs no child
command (no process is created). -/
theorem C6_individual_already_running (fb bb : Bool) (rr : RunResult) :
    (fb = true →
      start_frontend fb bb rr =
        ⟨false, false, some (ErrReport.alreadyRunning Role.frontend)⟩) ∧
    (bb = true →
      start_backend fb bb rr =
        ⟨false, false, some (ErrReport.alreadyRunning Role.backend)⟩) := by
  constructor
  · intro h; subst h; rfl
  · intro h; subst h; rfl

/-- Witness for C6 at `fb = bb = true`. -/
theorem C6_individual_already_running_witness :
    start_frontend true true RunResult.success =
        ⟨false, false, some (ErrReport.alreadyRunning Role.frontend)⟩ ∧
    start_backend true true RunResult.success =
        ⟨false, false, some (ErrReport.alreadyRunning Role.backend)⟩ :=
  ⟨(C6_individual_already_running true true RunResult.success).1 rfl,
   (C6_individual_already_running true true RunResult.success).2 rfl⟩

/-- C5: a joint start invoked while only the backend port (5000) is bound
reports `AlreadyRunning` for the backend, spawns exactly the frontend
(one managed process), and — for every port configuration and monitor
event — the joint start never reports `ConflictingRole`. -/
theorem C5_joint_backend_bound (ev ev2 : MonitorEvent) (fb bb : Bool)
    (r : Role) :
    ErrReport.alreadyRunning Role.backend ∈ (start_both false true ev).reported ∧
    (start_both false true ev).spawned = [Role.frontend] ∧
    ErrReport.conflictingRole r ∉ (start_both fb bb ev2).reported := by
  refine ⟨?_, ?_, ?_⟩
  · cases ev <;> simp [start_both]
  · cases ev <;> rfl
  · cases fb <;> cases bb <;> cases ev2 <;> simp [start_both]

/-- C10: with no arguments and both ports already bound, the joint start
spawns no process at all and the script exits 0, whatever the monitor
event would have been (no user stop is needed). -/
theorem C10_both_bound_no_spawn (ev : MonitorEvent) (rr : RunResult)
    (lsofPid : Option Nat) (ko : KillOutcome) :
    (main [] true true ev rr lsofPid ko).exitCode = 0 ∧
    (main [] true true ev rr lsofPid ko).session =
      some (start_both true true ev) ∧
    (start_both true true ev).spawned = [] :=
  ⟨rfl, rfl, rfl⟩

/-- A list of kill actions satisfies `noTermAfterKill`. -/
theorem noTermAfterKill_of_all_kill (l : List Action)
    (h : ∀ a ∈ l, isKill a = true) : noTermAfterKill l = true := by
  induction l with
  | nil => rfl
  | cons a rest ih =>
    simp only [noTermAfterKill, Bool.and_eq_true, Bool.or_eq_true]
    refine ⟨?_, ih fun b hb => h b (List.mem_cons_of_mem a hb)⟩
    refine Or.inr ?_
    exact List.all_eq_true.mpr fun b hb => h b (List.mem_cons_of_mem a hb)

/-- Non-kill actions followed by kill actions: no terminate after a kill. -/
theorem noTermAfterKill_append (l1 l2 : List Action)
    (h1 : ∀ a ∈ l1, isKill a = false) (h2 : ∀ a ∈ l2, isKill a = true) :
    noTermAfterKill (l1 ++ l2) = true := by
  induction l1 with
  | nil => simpa using noTermAfterKill_of_all_kill l2 h2
  | cons a rest ih =>
    simp only [List.cons_append, noTermAfterKill, Bool.and_eq_true,
      Bool.or_eq_true]
    refine ⟨Or.inl ?_, ih fun b hb => h1 b (List.mem_cons_of_mem a hb)⟩
    simp [h1 a (List.mem_cons_self a rest)]

/-- C3 (counterexample): in a joint session with both roles spawned, when
the frontend dies while the backend is alive — and would stay alive
through any grace period — the cascade sends only a graceful terminate to
the backend and issues no forced kill at all (and performs no grace
wait), contradicting the claimed terminate/wait/kill escalation. -/
theorem C3_cascade_counterexample :
    (start_both false false
        (MonitorEvent.died Role.frontend 1 (fun x => x == Role.backend)
          (fun _ => true))).shutdownActs = [Action.terminate Role.backend] ∧
    Action.kill Role.backend ∉
      (start_both false false
        (MonitorEvent.died Role.frontend 1 (fun x => x == Role.backend)
          (fun _ => true))).shutdownActs ∧
    (fun (_ : Role) => true) Role.backend = true := by
  exact ⟨rfl, by decide, rfl⟩

/-- C3 (amended): on an unexpected exit, every spawned process whose poll
still reports it alive receives a graceful terminate, and the cascade
path never issues a forced kill (there is no grace-period escalation on
this path; `kill` is reserved for the user-interrupt path). -/
theorem C3_cascade_amended (fb bb : Bool) (r : Role) (code : Int)
    (pollAlive aliveAfterGrace : Role → Bool) (x : Role) :
    (x ∈ (start_both fb bb
            (MonitorEvent.died r code pollAlive aliveAfterGrace)).spawned →
      pollAlive x = true →
      Action.terminate x ∈
        (start_both fb bb
          (MonitorEvent.died r code pollAlive aliveAfterGrace)).shutdownActs) ∧
    Action.kill x ∉
      (start_both fb bb
        (MonitorEvent.died r code pollAlive aliveAfterGrace)).shutdownActs := by
  constructor
  · intro hx hpa
    cases fb <;> cases bb <;>
      simp_all [start_both, List.mem_filter, List.mem_map]
  · cases fb <;> cases bb <;> simp [start_both, List.mem_map]

/-- Witness for C3 (amended): frontend dead, backend alive. -/
theorem C3_cascade_amended_witness :
    Action.terminate Role.backend ∈
      (start_both false false
        (MonitorEvent.died Role.frontend 1 (fun x => x == Role.backend)
          (fun _ => false))).shutdownActs ∧
    Action.kill Role.backend ∉
      (start_both false false
        (MonitorEvent.died Role.frontend 1 (fun x => x == Role.backend)
          (fun _ => false))).shutdownActs :=
  ⟨(C3_cascade_amended false false Role.frontend 1
      (fun x => x == Role.backend) (fun _ => false) Role.backend).1
      (by decide) (by decide),
   (C3_cascade_amended false false Role.frontend 1
      (fun x => x == Role.backend) (fun _ => false) Role.backend).2⟩

/-- C7: on user cancellation of a joint session, every role whose poll
reports it alive receives a graceful terminate; a forced kill goes only
to a role still alive after the grace period (one whose poll after the
`time.sleep(1)` still reports it alive), a role that exited within the
grace period is never force-killed, and no terminate is issued after any
kill (all graceful signals precede all forced ones). -/
theorem C7_interrupt_escalation (pollAlive pollAliveAfterGrace : Role → Bool) :
    (pollAlive Role.frontend = true →
      Action.terminate Role.frontend ∈
        (start_both false false
          (MonitorEvent.interrupt pollAlive pollAliveAfterGrace)).shutdownActs) ∧
    (pollAlive Role.backend = true →
      Action.terminate Role.backend ∈
        (start_both false false
          (MonitorEvent.interrupt pollAlive pollAliveAfterGrace)).shutdownActs) ∧
    (∀ x : Role,
      Action.kill x ∈
          (start_both false false
            (MonitorEvent.interrupt pollAlive pollAliveAfterGrace)).shutdownActs →
        pollAliveAfterGrace x = true) ∧
    (∀ x : Role, pollAliveAfterGrace x = false →
      Action.kill x ∉
        (start_both false false
          (MonitorEvent.interrupt pollAlive pollAliveAfterGrace)).shutdownActs) ∧
    noTermAfterKill
        (start_both false false
          (MonitorEvent.interrupt pollAlive pollAliveAfterGrace)).shutdownActs
      = true := by
  have hacts :
      (start_both false false
          (MonitorEvent.interrupt pollAlive pollAliveAfterGrace)).shutdownActs
        = (([Role.backend, Role.frontend].filter pollAlive).map
            Action.terminate)
          ++ (([Role.backend, Role.frontend].filter
                pollAliveAfterGrace).map Action.kill) := rfl
  refine ⟨?_, ?_, ?_, ?_, ?_⟩
  · intro h
    rw [hacts]
    refine List.mem_append.mpr (Or.inl ?_)
    exact List.mem_map.mpr
      ⟨Role.frontend, List.mem_filter.mpr ⟨by simp, h⟩, rfl⟩
  · intro h
    rw [hacts]
    refine List.mem_append.mpr (Or.inl ?_)
    exact List.mem_map.mpr
      ⟨Role.backend, List.mem_filter.mpr ⟨by simp, h⟩, rfl⟩
  · intro x hx
    rw [hacts] at hx
    rcases List.mem_append.mp hx with h | h
    · rcases List.mem_map.mp h with ⟨a, _, hq⟩
      exact absurd hq (by simp)
    · rcases List.mem_map.mp h with ⟨a, ha, hq⟩
      injection hq with h2
      subst h2
      exact (List.mem_filter.mp ha).2
  · intro x hx hmem
    rw [hacts] at hmem
    rcases List.mem_append.mp hmem with h | h
    · rcases List.mem_map.mp h with ⟨a, _, hq⟩
      exact absurd hq (by simp)
    · rcases List.mem_map.mp h with ⟨a, ha, hq⟩
      injection hq with h2
      subst h2
      exact absurd (List.mem_filter.mp ha).2 (by simp [hx])
  · rw [hacts]
    refine noTermAfterKill_append _ _ ?_ ?_
    · intro a ha
      rcases List.mem_map.mp ha with ⟨b, _, hb⟩
      rw [← hb]; rfl
    · intro a ha
      rcases List.mem_map.mp ha with ⟨b, _, hb⟩
      rw [← hb]; rfl

/-- Witness for C7: both roles alive at interrupt, both exit within the
grace period. -/
theorem C7_interrupt_escalation_witness :
    Action.terminate Role.frontend ∈
      (start_both false false
        (MonitorEvent.interrupt (fun _ => true) (fun _ => false))).shutdownActs ∧
    Action.terminate Role.backend ∈
      (start_both false false
        (MonitorEvent.interrupt (fun _ => true) (fun _ => false))).shutdownActs ∧
    Action.kill Role.frontend ∉
      (start_both false false
        (MonitorEvent.interrupt (fun _ => true) (fun _ => false))).shutdownActs :=
  ⟨(C7_interrupt_escalation (fun _ => true) (fun _ => false)).1 rfl,
   (C7_interrupt_escalation (fun _ => true) (fun _ => false)).2.1 rfl,
   (C7_interrupt_escalation (fun _ => true) (fun _ => false)).2.2.2.1
     Role.frontend rfl⟩

/-- A sentinel found after a `popLine` was already in the queue. -/
theorem popLine_none_mem {q : List (Option String)}
    (h : (none : Option String) ∈ (popLine q).2) :
    (none : Option String) ∈ q := by
  cases q with
  | nil => simp [popLine] at h
  | cons a rest =>
    cases a with
    | none => simp
    | some l => exact List.mem_cons_of_mem _ (by simpa [popLine] using h)

/-- Exit characterisation of the drain loop: an exit is caused by a
sentinel that was on the exiting queue, or by the process having been
observed exited, in which case both queues were fully drained. -/
theorem drainLoop_exit_reasons :
    ∀ (fuel : Nat) (exited : Bool) (outQ errQ : List (Option String))
      (acc : List (Sink × String)) (r : DrainResult),
      drainLoop fuel exited outQ errQ acc = some r →
      (r.reason = ExitReason.procExit →
          exited = true ∧ r.stdoutRem = [] ∧ r.stderrRem = []) ∧
      (r.reason = ExitReason.stdoutSentinel →
          (none : Option String) ∈ outQ) ∧
      (r.reason = ExitReason.stderrSentinel →
          (none : Option String) ∈ errQ) := by
  intro fuel
  induction fuel with
  | zero =>
    intro exited outQ errQ acc r h
    exact absurd h (by simp [drainLoop])
  | succ n ih =>
    intro exited outQ errQ acc r h
    cases outQ with
    | cons o orest =>
      cases o with
      | none =>
        obtain rfl := Option.some_inj.mp h
        exact ⟨by simp, by simp, by simp⟩
      | some l =>
        cases errQ with
        | cons e erest =>
          cases e with
          | none =>
            obtain rfl := Option.some_inj.mp h
            exact ⟨by simp, by simp, by simp⟩
          | some m =>
            cases exited with
            | true =>
              obtain rfl := Option.some_inj.mp h
              exact ⟨by simp, by simp, by simp⟩
            | false =>
              replace h :
                  drainLoop n false (popLine (some l :: orest)).2
                    (popLine (some m :: erest)).2
                    (pushPopped .err (popLine (some m :: erest)).1
                      (pushPopped .out (popLine (some l :: orest)).1 acc))
                    = some r := h
              obtain ⟨h1, h2, h3⟩ := ih false _ _ _ r h
              exact ⟨h1, fun hr => popLine_none_mem (h2 hr),
                     fun hr => popLine_none_mem (h3 hr)⟩
        | nil =>
          cases exited with
          | true =>
            obtain rfl := Option.some_inj.mp h
            exact ⟨by simp, by simp, by simp⟩
          | false =>
            replace h :
                drainLoop n false (popLine (some l :: orest)).2
                  (popLine ([] : List (Option String))).2
                  (pushPopped .err (popLine ([] : List (Option String))).1
                    (pushPopped .out (popLine (some l :: orest)).1 acc))
                  = some r := h
            obtain ⟨h1, h2, h3⟩ := ih false _ _ _ r h
            exact ⟨h1, fun hr => popLine_none_mem (h2 hr),
                   fun hr => popLine_none_mem (h3 hr)⟩
    | nil =>
      cases errQ with
      | cons e erest =>
        cases e with
        | none =>
          obtain rfl := Option.some_inj.mp h
          exact ⟨by simp, by simp, by simp⟩
        | some m =>
          cases exited with
          | true =>
            obtain rfl := Option.some_inj.mp h
            exact ⟨by simp, by simp, by simp⟩
          | false =>
            replace h :
                drainLoop n false (popLine ([] : List (Option String))).2
                  (popLine (some m :: erest)).2
                  (pushPopped .err (popLine (some m :: erest)).1
                    (pushPopped .out (popLine ([] : List (Option String))).1
                      acc))
                  = some r := h
            obtain ⟨h1, h2, h3⟩ := ih false _ _ _ r h
            exact ⟨h1, fun hr => popLine_none_mem (h2 hr),
                   fun hr => popLine_none_mem (h3 hr)⟩
      | nil =>
        cases exited with
        | true =>
          obtain rfl := Option.some_inj.mp h
          exact ⟨by simp, by simp, by simp⟩
        | false =>
          replace h :
              drainLoop n false (popLine ([] : List (Option String))).2
                (popLine ([] : List (Option String))).2
                (pushPopped .err (popLine ([] : List (Option String))).1
                  (pushPopped .out (popLine ([] : List (Option String))).1
                    acc))
                = some r := h
          obtain ⟨h1, h2, h3⟩ := ih false _ _ _ r h
          exact ⟨h1, fun hr => popLine_none_mem (h2 hr),
                 fun hr => popLine_none_mem (h3 hr)⟩

/-- C2 (counterexample): a run of the drain loop in which the stdout queue
holds only the sentinel, the stderr queue still holds an undelivered line
(and its sentinel), and the process is alive (`exited = false`): the loop
exits on the first stdout sentinel, leaving the stderr side open with its
line undelivered — contradicting "the loop exits only after both sides
are closed". -/
theorem C2_drain_counterexample :
    print_output 5 false [none] [some "e", none]
      = some ⟨[], ExitReason.stdoutSentinel, [], [some "e", none]⟩ :=
  rfl

/-- C2 (amended): the drain loop exits as soon as the end-of-stream
sentinel is observed on *either* queue — possibly while the other stream
is still open with undelivered lines and the process alive — or after the
process is observed exited, in which case both queues are fully drained
before exit; while the process is alive, only a sentinel makes it exit. -/
theorem C2_drain_amended (fuel : Nat) (exited : Bool)
    (outQ errQ : List (Option String)) (r : DrainResult)
    (h : print_output fuel exited outQ errQ = some r) :
    (r.reason = ExitReason.procExit →
        exited = true ∧ r.stdoutRem = [] ∧ r.stderrRem = []) ∧
    (r.reason = ExitReason.stdoutSentinel →
        (none : Option String) ∈ outQ) ∧
    (r.reason = ExitReason.stderrSentinel →
        (none : Option String) ∈ errQ) ∧
    (exited = false →
        r.reason = ExitReason.stdoutSentinel ∨
        r.reason = ExitReason.stderrSentinel) := by
  obtain ⟨h1, h2, h3⟩ := drainLoop_exit_reasons fuel exited outQ errQ [] r h
  refine ⟨h1, h2, h3, ?_⟩
  intro hf
  cases hr : r.reason with
  | stdoutSentinel => exact Or.inl rfl
  | stderrSentinel => exact Or.inr rfl
  | procExit => exact absurd ((h1 hr).1.symm.trans hf) (by decide)

/-- Witness for C2 (amended): exited process, one stdout line, applied
through the amended theorem. -/
theorem C2_drain_amended_witness :
    true = true ∧ ([] : List (Option String)) = [] ∧
      ([] : List (Option String)) = [] :=
  (C2_drain_amended 5 true [some "a"] []
      ⟨[(Sink.out, "a")], ExitReason.procExit, [], []⟩ rfl).1 rfl

/-- C1 (counterexample): `stop frontend` with nothing bound on the
frontend port: `stop_server` finds no process and returns `False`, yet
`main` discards that value and falls off its end, so the process exit
code is 0 — not the claimed nonzero. -/
theorem C1_stop_counterexample :
    (main ["stop", "frontend"] false false
        (MonitorEvent.exn (fun _ => false)) RunResult.success none
        KillOutcome.ok).exitCode = 0 ∧
    (main ["stop", "frontend"] false false
        (MonitorEvent.exn (fun _ => false)) RunResult.success none
        KillOutcome.ok).stopResult = some false :=
  ⟨rfl, rfl⟩

/-- C1 (amended): for `stop frontend` / `stop backend`, `stop_server`
returns `True` exactly when a listening process was found (port bound and
a pid resolved) and successfully signaled — but `main` ignores that
result, and the process exit code is 0 regardless of the outcome. -/
theorem C1_stop_amended (fb bb : Bool) (ev : MonitorEvent) (rr : RunResult)
    (lsofPid : Option Nat) (ko : KillOutcome) (ty : String)
    (h : ty = "frontend" ∨ ty = "backend") :
    (main ["stop", ty] fb bb ev rr lsofPid ko).exitCode = 0 ∧
    (main ["stop", ty] fb bb ev rr lsofPid ko).stopResult
      = some (stop_server (pyLower ty) fb bb lsofPid ko) ∧
    (stop_server (pyLower ty) fb bb lsofPid ko = true ↔
      ((if ty = "frontend" then fb else bb) = true ∧
        lsofPid.isSome = true ∧ ko = KillOutcome.ok)) := by
  rcases h with rfl | rfl
  · refine ⟨rfl, rfl, ?_⟩
    show stopOnPort fb lsofPid ko = true ↔
      (fb = true ∧ lsofPid.isSome = true ∧ ko = KillOutcome.ok)
    cases fb <;> rcases lsofPid with _ | pid <;> cases ko <;>
      simp [stopOnPort]
  · refine ⟨rfl, rfl, ?_⟩
    show stopOnPort bb lsofPid ko = true ↔
      (bb = true ∧ lsofPid.isSome = true ∧ ko = KillOutcome.ok)
    cases bb <;> rcases lsofPid with _ | pid <;> cases ko <;>
      simp [stopOnPort]

/-- Witness for C1 (amended): `stop backend` with the backend port bound,
a pid resolved, and the signal delivered. -/
theorem C1_stop_amended_witness :
    (main ["stop", "backend"] false true
        (MonitorEvent.exn (fun _ => false)) RunResult.success (some 4242)
        KillOutcome.ok).exitCode = 0 :=
  (C1_stop_amended false true (MonitorEvent.exn (fun _ => false))
      RunResult.success (some 4242) KillOutcome.ok "backend"
      (Or.inr rfl)).1

/-- C8: with no arguments the entry point runs the joint start, and the
exit code is 0 on a user-initiated stop (interrupt), nonzero when a
spawned role died first, and nonzero when the launch raised. -/
theorem C8_no_args_exit_codes (fb bb : Bool) (ev : MonitorEvent)
    (pa pag pal sag : Role → Bool) (r : Role) (code : Int) (rr : RunResult)
    (lsofPid : Option Nat) (ko : KillOutcome) :
    (main [] fb bb ev rr lsofPid ko).session = some (start_both fb bb ev) ∧
    (main [] fb bb (MonitorEvent.interrupt pa pag) rr lsofPid ko).exitCode
      = 0 ∧
    (¬(fb = true ∧ bb = true) →
      (main [] fb bb (MonitorEvent.died r code pa sag) rr lsofPid
          ko).exitCode ≠ 0) ∧
    (¬(fb = true ∧ bb = true) →
      (main [] fb bb (MonitorEvent.exn pal) rr lsofPid ko).exitCode ≠ 0) := by
  refine ⟨rfl, ?_, ?_, ?_⟩
  · cases fb <;> cases bb <;> rfl
  · intro hnb
    cases fb <;> cases bb
    · exact Nat.one_ne_zero
    · exact Nat.one_ne_zero
    · exact Nat.one_ne_zero
    · exact absurd ⟨rfl, rfl⟩ hnb
  · intro hnb
    cases fb <;> cases bb
    · exact Nat.one_ne_zero
    · exact Nat.one_ne_zero
    · exact Nat.one_ne_zero
    · exact absurd ⟨rfl, rfl⟩ hnb

/-- Witness for C8: backend dies in a session where nothing was bound. -/
theorem C8_no_args_exit_codes_witness :
    (main [] false false
        (MonitorEvent.died Role.backend 1 (fun _ => true) (fun _ => true))
        RunResult.success none KillOutcome.ok).exitCode ≠ 0 :=
  (C8_no_args_exit_codes false false (MonitorEvent.exn (fun _ => true))
      (fun _ => true) (fun _ => true) (fun _ => true) (fun _ => true)
      Role.backend 1 RunResult.success none KillOutcome.ok).2.2.1
    (by decide)

/-- C9 (counterexample): an unknown command exits 1 but writes the usage
text to standard output, not to standard error as claimed — the unknown
branch of `main` prints the error line and `print_usage()` with plain
`print`, both on stdout, and nothing on stderr. -/
theorem C9_unknown_usage_counterexample :
    (main ["frobnicate"] false false (MonitorEvent.exn (fun _ => false))
        RunResult.success none KillOutcome.ok).exitCode = 1 ∧
    (Chan.stdout, usage_text) ∈
      (main ["frobnicate"] false false (MonitorEvent.exn (fun _ => false))
          RunResult.success none KillOutcome.ok).outputs ∧
    (Chan.stderr, usage_text) ∉
      (main ["frobnicate"] false false (MonitorEvent.exn (fun _ => false))
          RunResult.success none KillOutcome.ok).outputs := by
  refine ⟨rfl, ?_, ?_⟩
  · exact List.Mem.tail _ (List.Mem.head _)
  · decide

/-- C9 (amended): `help` writes the usage text to standard output and
exits 0; an unknown command writes the error line and the usage text to
standard output (not standard error) and exits 1. -/
theorem C9_usage_amended (fb bb : Bool) (ev : MonitorEvent) (rr : RunResult)
    (lsofPid : Option Nat) (ko : KillOutcome) (cmd : String)
    (h1 : pyLower cmd ≠ "help") (h2 : pyLower cmd ≠ "-h")
    (h3 : pyLower cmd ≠ "--help") (h4 : pyLower cmd ≠ "status")
    (h5 : pyLower cmd ≠ "start") (h6 : pyLower cmd ≠ "stop") :
    (main ["help"] fb bb ev rr lsofPid ko).exitCode = 0 ∧
    (main ["help"] fb bb ev rr lsofPid ko).outputs
      = [(Chan.stdout, usage_text)] ∧
    (main [cmd] fb bb ev rr lsofPid ko).exitCode = 1 ∧
    (main [cmd] fb bb ev rr lsofPid ko).outputs
      = [(Chan.stdout, "❌ Error: Unknown command " ++ pyLower cmd),
         (Chan.stdout, usage_text)] := by
  refine ⟨rfl, rfl, ?_, ?_⟩ <;> simp [main, h1, h2, h3, h4, h5, h6]

/-- Witness for C9 (amended) at the unknown command `bogus`. -/
theorem C9_usage_amended_witness :
    (main ["bogus"] false false (MonitorEvent.exn (fun _ => false))
        RunResult.success none KillOutcome.ok).exitCode = 1 :=
  (C9_usage_amended false false (MonitorEvent.exn (fun _ => false))
      RunResult.success none KillOutcome.ok "bogus" (by decide) (by decide)
      (by decide) (by decide) (by decide) (by decide)).2.2.1

end StartServer
